import Mathlib

/-!
A shallow embedding of the `nova-autoreset-event` crate: a cross-platform
autoreset event with four backends (eventfd on Linux, kqueue+pipe on
macOS/BSD, a pipe-only fallback on other unixes, and a Win32 auto-reset
event object on Windows).

The logical state of each backend is the kernel state its syscalls act on:
the eventfd counter, the number of bytes buffered in a pipe, the pending
flag of an `EVFILT_USER` kevent, or the signalled bit of a Win32 event.
Sequential operations are embedded as state-transition functions; a
blocking operation returns `none` when it would block.  A timed wait is
additionally parametrised by a small environment (`Env`) giving the arrival
time of the first external `signal` during the call, if any.  Failure
handling is embedded separately: `*_sys` functions take the raw syscall
results as inputs and decide between returning a value and aborting the
process (`Outcome.fatal`), mirroring the `panic!` calls in the source.
-/

namespace Nova

/-- `std::time::Duration`, represented by its total nanosecond count
(`secs * 10^9 + subsec_nanos`; Rust stores 64-bit seconds plus sub-second
nanoseconds, which we do not need to bound for the claims at hand). -/
structure Duration where
  ns : Nat
deriving DecidableEq, Repr

/-- `Duration::as_millis`: whole milliseconds of the duration. -/
def Duration.as_millis (d : Duration) : Nat := d.ns / 1000000

/-- `Duration::as_secs`: whole seconds of the duration. -/
def Duration.as_secs (d : Duration) : Nat := d.ns / 1000000000

/-- `Duration::subsec_nanos`: the sub-second nanosecond part. -/
def Duration.subsec_nanos (d : Duration) : Nat := d.ns % 1000000000

/-- `Duration::from_millis`. -/
def Duration.from_millis (m : Nat) : Duration := ⟨m * 1000000⟩

/-- Environment of a single timed-wait call, for sequential reasoning:
the time (in nanoseconds from the start of the call) at which the first
external `signal` lands during the call, or `none` if no signal arrives
while the call is in progress. -/
structure Env where
  arrival : Option Nat
deriving DecidableEq, Repr

/-- Whether a signal arrives strictly inside a poll window of `millis`
milliseconds (the kernel wakes the poller as soon as the descriptor
becomes readable). -/
def signal_arrives (millis : Nat) (env : Env) : Bool :=
  match env.arrival with
  | none => false
  | some t => decide (t < millis * 1000000)

/-- `libc::c_int::MAX`, the largest timeout acceptable to `poll(2)`. -/
def c_int_MAX : Nat := 2147483647

/-- Identifies the `panic!` format string of each fatal abort in the
source (the actual message interpolates the OS error after this text). -/
inductive FatalMsg
  | read_failed                    -- "read failed with error {}"
  | write_failed                   -- "write failed with error {}"
  | poll_failed                    -- "poll failed with error {}"
  | kevent_failed                  -- "kevent failed with error {}"
  | wait_for_single_object_failed  -- "WaitForSingleObject failed with error {}"
  | set_event_failed               -- "SetEvent failed with error {}"
deriving DecidableEq, Repr

/-- Result of an API call whose OS interactions may fail: either the
value the caller receives, or a process abort (`panic!`) carrying the
message tag and the OS error code that the panic message interpolates.
There is no recoverable-error constructor: the Rust signatures return
bare `()` / `bool`, so an OS failure can only surface as an abort. -/
inductive Outcome (α : Type)
  | ok (a : α)
  | fatal (msg : FatalMsg) (osError : Nat)
deriving DecidableEq, Repr

/-- Raw result of a unix `read`/`write`/`kevent` call: the non-negative
return value, or -1 with `errno`. -/
inductive SysRet
  | ok (ret : Nat)
  | err (errno : Nat)
deriving DecidableEq, Repr

/-- Raw result of `poll(2)`: the number of ready descriptors together
with whether `revents` had `POLLIN` set, or -1 with `errno`. -/
inductive PollRet
  | ok (ret : Nat) (pollin : Bool)
  | err (errno : Nat)
deriving DecidableEq, Repr

/-- The errno to which `std::io::ErrorKind::WouldBlock` corresponds
(`EAGAIN`, equal to `EWOULDBLOCK` on the supported platforms). -/
def EAGAIN : Nat := 11

/-- `EINVAL`, the errno with which `kevent` rejects a negative time
limit. -/
def EINVAL : Nat := 22

/-! ## Eventfd backend (`src/linux.rs`)

Kernel state: the 64-bit counter of the eventfd, created at 0
(`EFD_INITIAL_VALUE`).  `write` of the 8-byte value 1 adds 1 to the
counter; a blocking `read` of 8 bytes returns the whole counter and
resets it to 0 (the eventfd is created without `EFD_SEMAPHORE`), blocking
while the counter is 0. -/

namespace linux

/-- The eventfd counter. -/
abbrev State := Nat

/-- `AutoResetEvent::signal`: `write(fd, &1u64, 8)` adds 1 to the counter. -/
def signal (s : State) : State := s + 1

/-- `AutoResetEvent::wait`: a blocking 8-byte `read` that drains the whole
counter to 0; `none` means the call blocks (counter is 0 and stays 0). -/
def wait (s : State) : Option State :=
  if 0 < s then some 0 else none

/-- The poll timeout computed by `try_wait_for`:
`timeout.as_millis().min(libc::c_int::MAX as u128)`. -/
def poll_millis (timeout : Duration) : Nat :=
  min timeout.as_millis c_int_MAX

/-- The value actually passed to `poll(2)` after the
`as libc::c_int` cast; `poll_millis` is at most `c_int::MAX`, so the cast
is value-preserving, and -1 (the "wait forever" sentinel) is never built. -/
def poll_timeout_c_int (timeout : Duration) : Int :=
  (poll_millis timeout : Int)

/-- `AutoResetEvent::try_wait_for`, sequential semantics: poll the
eventfd for readability for at most `poll_millis timeout` milliseconds,
and on readiness perform the draining 8-byte read.  The counter is
readable at once when positive; otherwise the poll wakes only if a signal
arrives inside the window (making the counter 1, which the read then
drains to 0). -/
def try_wait_for (s : State) (timeout : Duration) (env : Env) : Bool × State :=
  let millis := poll_millis timeout
  if 0 < s then (true, 0)
  else if signal_arrives millis env then (true, 0)
  else (false, s)

/-- `AutoResetEvent::try_wait` delegates to
`try_wait_for(Duration::from_millis(0))`. -/
def try_wait (s : State) (env : Env) : Bool × State :=
  try_wait_for s (Duration.from_millis 0) env

/-- `AutoResetEvent::wait`, failure handling: the return of the blocking
`read` decides between returning and `panic!("read failed with error {}")`. -/
def wait_sys (readRet : SysRet) : Outcome Unit :=
  match readRet with
  | .ok _ => .ok ()
  | .err e => .fatal .read_failed e

/-- `AutoResetEvent::signal`, failure handling: the return of `write`
decides between returning and `panic!("write failed with error {}")`. -/
def signal_sys (writeRet : SysRet) : Outcome Unit :=
  match writeRet with
  | .ok _ => .ok ()
  | .err e => .fatal .write_failed e

/-- `AutoResetEvent::try_wait_for`, failure handling, given the raw
results of `poll` and of the consuming `read` (the latter examined only
when `ret > 0 && (revents & POLLIN) != 0`): a poll error is fatal; a read
error of kind `WouldBlock` right after a positive poll is the benign
lost-race case and returns `false`; any other read error is fatal. -/
def try_wait_for_sys (pollRet : PollRet) (readRet : SysRet) : Outcome Bool :=
  match pollRet with
  | .err e => .fatal .poll_failed e
  | .ok ret pollin =>
    if 0 < ret ∧ pollin then
      match readRet with
      | .ok _ => .ok true
      | .err e => if e = EAGAIN then .ok false else .fatal .read_failed e
    else
      .ok false

end linux

/-! ## Pipe-only backend (`src/pipe.rs`)

Kernel state: the number of bytes buffered in the pipe.  `signal` writes
exactly one byte to the write end; `wait` performs a blocking one-byte
read from the read end, consuming exactly one byte (not the whole
buffer — this is where the pipe backend differs from the eventfd one). -/

namespace pipe

/-- Bytes currently buffered in the pipe. -/
abbrev State := Nat

/-- `AutoResetEvent::signal`: `write(fds[1], &buf, 1)` appends one byte. -/
def signal (s : State) : State := s + 1

/-- `AutoResetEvent::wait`: a blocking `read(fds[0], &buf, 1)` consuming
one byte; `none` means the call blocks (pipe empty and stays empty). -/
def wait (s : State) : Option State :=
  if 0 < s then some (s - 1) else none

/-- The poll timeout computed by `try_wait_for` (same line as in the
eventfd backend): `timeout.as_millis().min(libc::c_int::MAX as u128)`. -/
def poll_millis (timeout : Duration) : Nat :=
  min timeout.as_millis c_int_MAX

/-- The value passed to `poll(2)` after the `as libc::c_int` cast. -/
def poll_timeout_c_int (timeout : Duration) : Int :=
  (poll_millis timeout : Int)

/-- `AutoResetEvent::try_wait_for`, sequential semantics: poll the read
end for readability for at most `poll_millis timeout` milliseconds, then
read one byte.  If the pipe already holds bytes, one byte is consumed;
otherwise the poll wakes only if a signal's byte arrives inside the
window, and the read consumes that byte. -/
def try_wait_for (s : State) (timeout : Duration) (env : Env) : Bool × State :=
  let millis := poll_millis timeout
  if 0 < s then (true, s - 1)
  else if signal_arrives millis env then (true, 0)
  else (false, s)

/-- `AutoResetEvent::try_wait` delegates to
`try_wait_for(Duration::from_millis(0))`. -/
def try_wait (s : State) (env : Env) : Bool × State :=
  try_wait_for s (Duration.from_millis 0) env

/-- `AutoResetEvent::wait`, failure handling (same shape as the eventfd
backend: fatal on any read error). -/
def wait_sys (readRet : SysRet) : Outcome Unit :=
  match readRet with
  | .ok _ => .ok ()
  | .err e => .fatal .read_failed e

/-- `AutoResetEvent::signal`, failure handling. -/
def signal_sys (writeRet : SysRet) : Outcome Unit :=
  match writeRet with
  | .ok _ => .ok ()
  | .err e => .fatal .write_failed e

/-- `AutoResetEvent::try_wait_for`, failure handling: identical decision
structure to the eventfd backend (`WouldBlock` after a positive poll is
folded into `false`; everything else is fatal). -/
def try_wait_for_sys (pollRet : PollRet) (readRet : SysRet) : Outcome Bool :=
  match pollRet with
  | .err e => .fatal .poll_failed e
  | .ok ret pollin =>
    if 0 < ret ∧ pollin then
      match readRet with
      | .ok _ => .ok true
      | .err e => if e = EAGAIN then .ok false else .fatal .read_failed e
    else
      .ok false

end pipe

/-! ## Kqueue + pipe backend (`src/macos.rs`)

Kernel state: the pending flag of the `EVFILT_USER` kevent registered
with `EV_ADD | EV_CLEAR` (auto-clearing: the flag is cleared when the
event is retrieved, and re-triggering while already pending coalesces),
together with the number of bytes buffered in the auxiliary pipe. -/

namespace macos

/-- The two kernel objects of the backend. -/
structure State where
  /-- Whether the `EVFILT_USER` event is pending (has been triggered and
  not yet retrieved by a `kevent` wait). -/
  uevent : Bool
  /-- Bytes currently buffered in the auxiliary pipe. -/
  pipeBytes : Nat
deriving DecidableEq, Repr

/-- The syscalls an operation issues, in program order. -/
inductive Syscall
  /-- `kevent(kq, &ke, 1, null, 0, null)` posting `NOTE_TRIGGER` on the
  `EVFILT_USER` event. -/
  | kevent_trigger_user
  /-- `write(fds[1], &buf, 1)`: one byte to the pipe's write end. -/
  | write_pipe_byte
  /-- `kevent(kq, null, 0, &ke, 1, timeout)`: retrieve one event from the
  queue, clearing the `EV_CLEAR` user event. -/
  | kevent_retrieve
deriving DecidableEq, Repr

/-- The three descriptors owned by the Event. -/
inductive Fd
  | kq
  | pipe_read
  | pipe_write
deriving DecidableEq, Repr

/-- `AutoResetEvent::signal`: first the `kevent` call triggering the user
event (setting its pending flag; a second trigger coalesces), then a
one-byte `write` to the pipe.  The second component records the syscalls
in program order. -/
def signal (s : State) : State × List Syscall :=
  let s1 : State := ⟨true, s.pipeBytes⟩
  let s2 : State := ⟨s1.uevent, s1.pipeBytes + 1⟩
  (s2, [Syscall.kevent_trigger_user, Syscall.write_pipe_byte])

/-- `AutoResetEvent::wait`: a blocking `kevent` retrieval with a null
timeout.  It consumes only the user event (clearing its pending flag);
the pipe is not read.  `none` means the call blocks. -/
def wait (s : State) : Option State :=
  if s.uevent then some ⟨false, s.pipeBytes⟩ else none

/-- The syscalls issued by a `wait` that returns. -/
def wait_syscalls : List Syscall := [Syscall.kevent_retrieve]

/-- The u64-to-`time_t` (`i64`) cast applied to `timeout.as_secs()` when
building the `timespec` for `try_wait_for` (two's-complement wrap: there
is no clamp in this backend, so `as_secs ≥ 2^63` wraps to a negative
`tv_sec`). -/
def tv_sec_cast (n : Nat) : Int :=
  if n % 18446744073709551616 < 9223372036854775808 then
    ((n % 18446744073709551616 : Nat) : Int)
  else
    ((n % 18446744073709551616 : Nat) : Int) - 18446744073709551616

/-- The total nanoseconds of the `timespec` passed to `kevent` by
`try_wait_for` (`tv_sec` from the cast above, `tv_nsec` from
`subsec_nanos`). -/
def timespec_ns (timeout : Duration) : Int :=
  tv_sec_cast timeout.as_secs * 1000000000 + (timeout.subsec_nanos : Int)

/-- `AutoResetEvent::try_wait_for`, sequential semantics on the domain
of valid (nonnegative) `timespec`s: a `kevent` retrieval bounded by the
`timespec`.  If the user event is already pending it is retrieved at
once; otherwise the call returns `true` only if a signal arrives inside
the window (which triggers the user event and writes a pipe byte; the
retrieval then clears the flag, leaving the byte).  For the wrapped
negative `timespec`s (`as_secs ≥ 2^63`) the real call does not time out
but aborts; `try_wait_for_full` covers that path. -/
def try_wait_for (s : State) (timeout : Duration) (env : Env) : Bool × State :=
  if s.uevent then (true, ⟨false, s.pipeBytes⟩)
  else
    match env.arrival with
    | some t =>
      if Int.ofNat t < timespec_ns timeout then (true, ⟨false, s.pipeBytes + 1⟩)
      else (false, s)
    | none => (false, s)

/-- `AutoResetEvent::try_wait_for` including `kevent`'s validation of the
time limit: a negative `timespec` (produced by the wrapping `as_secs`
cast, since this backend has no clamp) makes `kevent` return -1 with
`EINVAL`, and the code panics (`"kevent failed with error {}"`); a valid
`timespec` proceeds as `try_wait_for`. -/
def try_wait_for_full (s : State) (timeout : Duration) (env : Env) :
    Outcome (Bool × State) :=
  if timespec_ns timeout < 0 then .fatal .kevent_failed EINVAL
  else .ok (try_wait_for s timeout env)

/-- `AutoResetEvent::try_wait` delegates to
`try_wait_for(Duration::from_millis(0))`. -/
def try_wait (s : State) (env : Env) : Bool × State :=
  try_wait_for s (Duration.from_millis 0) env

/-- `AsRawFd::as_raw_fd` (and `AsFd::as_fd`) return `self.fds[0]`: the
pipe's read end, not the kqueue descriptor. -/
def as_raw_fd : Fd := Fd.pipe_read

/-- Readability of the exposed descriptor (the pipe's read end): it polls
readable exactly when the pipe holds at least one byte. -/
def pipe_read_readable (s : State) : Bool := decide (0 < s.pipeBytes)

/-- The outcomes of the three fallible steps of `AutoResetEvent::new`,
in program order: `kqueue()`, `pipe()`, and the `kevent` call registering
the `EVFILT_USER` event with `EV_ADD | EV_CLEAR`.  A failing call's
errno is recorded (`io::Error::last_os_error()`). -/
structure NewEnv where
  kqueue_ret : SysRet
  pipe_ret : SysRet
  kevent_add_ret : SysRet
deriving DecidableEq, Repr

/-- The value `AutoResetEvent::new` returns: the Event's initial state,
or the `io::Error` carrying the failing call's errno. -/
inductive NewReturn
  | ok (s : State)
  | err (errno : Nat)
deriving DecidableEq, Repr

/-- What a run of the constructor produces: the returned value (the Event
state, or the error carrying the failing call's errno) plus which
descriptors were allocated during the run and which were released again
before returning. -/
structure NewResult where
  result : NewReturn
  opened : List Fd
  closed : List Fd
deriving DecidableEq, Repr

/-- `AutoResetEvent::new`:
if `kqueue()` fails, nothing was allocated and the errno is returned;
if `pipe()` fails, the local `OwnedFd` for the kqueue is dropped (closing
it) before the errno is returned;
if the registering `kevent` fails, the already-built `event: Self` is
dropped — running `Drop for AutoResetEvent`, which deregisters the user
event and closes all three `OwnedFd`s — before the errno is returned;
otherwise the Event starts with the user event untriggered and the pipe
empty. -/
def new (env : NewEnv) : NewResult :=
  match env.kqueue_ret with
  | .err e => ⟨.err e, [], []⟩
  | .ok _ =>
    match env.pipe_ret with
    | .err e => ⟨.err e, [Fd.kq], [Fd.kq]⟩
    | .ok _ =>
      match env.kevent_add_ret with
      | .err e =>
        ⟨.err e, [Fd.kq, Fd.pipe_read, Fd.pipe_write],
          [Fd.kq, Fd.pipe_read, Fd.pipe_write]⟩
      | .ok _ => ⟨.ok ⟨false, 0⟩, [Fd.kq, Fd.pipe_read, Fd.pipe_write], []⟩

/-- `AutoResetEvent::wait`, failure handling: fatal on a `kevent` error
(`panic!("kevent failed with error {}")`). -/
def wait_sys (keventRet : SysRet) : Outcome Unit :=
  match keventRet with
  | .ok _ => .ok ()
  | .err e => .fatal .kevent_failed e

/-- `AutoResetEvent::try_wait_for`, failure handling: fatal on a `kevent`
error; otherwise the boolean is `res > 0`. -/
def try_wait_for_sys (keventRet : SysRet) : Outcome Bool :=
  match keventRet with
  | .ok n => .ok (decide (0 < n))
  | .err e => .fatal .kevent_failed e

/-- `AutoResetEvent::signal`, failure handling: fatal on a `kevent`
(trigger) error, then fatal on a pipe `write` error. -/
def signal_sys (keventRet : SysRet) (writeRet : SysRet) : Outcome Unit :=
  match keventRet with
  | .err e => .fatal .kevent_failed e
  | .ok _ =>
    match writeRet with
    | .err e => .fatal .write_failed e
    | .ok _ => .ok ()

end macos

/-! ## Win32 backend (`src/windows.rs`)

Kernel state: the signalled bit of the auto-reset event object created by
`CreateEventW(null, FALSE, FALSE, null)` (second argument `FALSE`:
auto-reset; third argument `FALSE`: initially unsignalled). -/

namespace windows

/-- The auto-reset event object's signalled bit. -/
abbrev State := Bool

/-- `WAIT_OBJECT_0`. -/
def WAIT_OBJECT_0 : Nat := 0

/-- `WAIT_TIMEOUT`. -/
def WAIT_TIMEOUT : Nat := 258

/-- `u32::MAX`, which is both the clamp bound used by `try_wait_for` and
the `INFINITE` sentinel of `WaitForSingleObject` (the value `wait()`
itself passes for its unbounded wait). -/
def INFINITE : Nat := 4294967295

/-- `AutoResetEvent::signal`: `SetEvent` sets the bit (idempotently). -/
def signal (_s : State) : State := true

/-- The timeout computed by `try_wait_for`:
`timeout.as_millis().min(u32::MAX as u128) as u32`. -/
def millis_of (timeout : Duration) : Nat :=
  min timeout.as_millis 4294967295

/-- `WaitForSingleObject(handle, millis)` on an auto-reset event, giving
the return code and resulting state when the call returns: an already-set
bit is consumed at once (`WAIT_OBJECT_0`); otherwise the call succeeds if
a signal arrives inside the window (always, for `INFINITE`), else it
times out.  When `blocksForever` holds, the call never returns and this
function's value is irrelevant. -/
def WaitForSingleObject (s : State) (millis : Nat) (env : Env) : Nat × State :=
  if s then (WAIT_OBJECT_0, false)
  else
    match env.arrival with
    | some t =>
      if t < millis * 1000000 ∨ millis = INFINITE then (WAIT_OBJECT_0, false)
      else (WAIT_TIMEOUT, s)
    | none => (WAIT_TIMEOUT, s)

/-- A `WaitForSingleObject` call that never returns: unsignalled event,
`INFINITE` timeout, and no signal ever arriving. -/
def blocksForever (s : State) (millis : Nat) (env : Env) : Prop :=
  s = false ∧ millis = INFINITE ∧ env.arrival = none

/-- `AutoResetEvent::wait` as a state transition:
`WaitForSingleObject(handle, u32::MAX)` returns (consuming the bit) iff
the event is or becomes signalled; `none` means the call blocks. -/
def wait (s : State) : Option State :=
  if s then some false else none

/-- `AutoResetEvent::try_wait`: its own `WaitForSingleObject(handle, 0)`
call (it does not delegate to `try_wait_for`), mapping `WAIT_OBJECT_0` to
`true` and `WAIT_TIMEOUT` to `false` (any other code panics; see
`try_wait_sys`). -/
def try_wait (s : State) (env : Env) : Bool × State :=
  let r := WaitForSingleObject s 0 env
  if r.1 = WAIT_OBJECT_0 then (true, r.2) else (false, r.2)

/-- `AutoResetEvent::try_wait_for`: `WaitForSingleObject` with the
clamped millisecond timeout, with the same result mapping. -/
def try_wait_for (s : State) (timeout : Duration) (env : Env) : Bool × State :=
  let r := WaitForSingleObject s (millis_of timeout) env
  if r.1 = WAIT_OBJECT_0 then (true, r.2) else (false, r.2)

/-- `AutoResetEvent::wait`, failure handling: any return code other than
`WAIT_OBJECT_0` aborts with the `GetLastError` code. -/
def wait_sys (res : Nat) (lastError : Nat) : Outcome Unit :=
  if res = WAIT_OBJECT_0 then .ok ()
  else .fatal .wait_for_single_object_failed lastError

/-- `AutoResetEvent::try_wait`, failure handling: `WAIT_OBJECT_0` is
`true`, `WAIT_TIMEOUT` is `false`, anything else aborts. -/
def try_wait_sys (res : Nat) (lastError : Nat) : Outcome Bool :=
  if res = WAIT_OBJECT_0 then .ok true
  else if res = WAIT_TIMEOUT then .ok false
  else .fatal .wait_for_single_object_failed lastError

/-- `AutoResetEvent::try_wait_for`, failure handling: same mapping as
`try_wait`. -/
def try_wait_for_sys (res : Nat) (lastError : Nat) : Outcome Bool :=
  if res = WAIT_OBJECT_0 then .ok true
  else if res = WAIT_TIMEOUT then .ok false
  else .fatal .wait_for_single_object_failed lastError

/-- `AutoResetEvent::signal`, failure handling: `SetEvent` returning
anything but `TRUE` aborts with the `GetLastError` code. -/
def signal_sys (res : Bool) (lastError : Nat) : Outcome Unit :=
  if res then .ok () else .fatal .set_event_failed lastError

end windows

/-! ## Multi-waiter system

A small transition system for the racy wait/signal scenario: `N` threads
are blocked in `wait` on kernel state `k0` (the state right after the one
`signal`); a step is one blocked thread's blocking wait completing, which
is possible exactly when the backend's `wait` function would return
(`waitFn k = some k'`).  This models the kernel's guarantee that the
consuming syscall of each backend (draining eventfd read, one-byte pipe
read, clearing kevent retrieval, auto-reset wait satisfaction) is atomic:
each completion transforms the kernel state by `waitFn`. -/

/-- Global state: kernel state plus how many threads are still blocked in
`wait` and how many have been woken. -/
structure Sys (K : Type) where
  kernel : K
  blocked : Nat
  woken : Nat
deriving DecidableEq, Repr

/-- One atomic completion of a blocked thread's wait. -/
inductive Step {K : Type} (waitFn : K → Option K) : Sys K → Sys K → Prop
  | consume (st : Sys K) (k' : K) (hk : waitFn st.kernel = some k')
      (hbl : 0 < st.blocked) :
      Step waitFn st ⟨k', st.blocked - 1, st.woken + 1⟩

/-- Reachability under `Step`. -/
def Reaches {K : Type} (waitFn : K → Option K) : Sys K → Sys K → Prop :=
  Relation.ReflTransGen (Step waitFn)

/-- From kernel state `k0` with `N` blocked threads and none woken: every
reachable state has at most one woken thread and conserves threads, and
some reachable state has exactly one woken thread, `N - 1` still blocked,
and no further step possible. -/
def ExactlyOneWakes {K : Type} (waitFn : K → Option K) (k0 : K) (N : Nat) : Prop :=
  (∀ st, Reaches waitFn ⟨k0, N, 0⟩ st → st.woken ≤ 1 ∧ st.blocked + st.woken = N) ∧
  (∃ st, Reaches waitFn ⟨k0, N, 0⟩ st ∧ st.woken = 1 ∧ st.blocked = N - 1 ∧
    ∀ st', ¬ Step waitFn st st')

/-! ## Helper lemmas -/

/-- A poll window of 0 milliseconds cannot observe an arriving signal:
the poll returns immediately. -/
theorem signal_arrives_zero_millis (env : Env) : signal_arrives 0 env = false := by
  unfold signal_arrives
  cases env.arrival with
  | none => rfl
  | some t => simp

/-- `Duration::from_millis(0)` is the zero duration. -/
theorem from_millis_zero : Duration.from_millis 0 = ⟨0⟩ := by
  simp [Duration.from_millis]

/-- Multi-waiter analysis: when the post-signal kernel state `a` admits
one consuming wait, leading to a state `b` on which `wait` blocks, then
with `N ≥ 1` threads blocked exactly one of them wakes. -/
theorem exactlyOneWakes_of_single_unit {K : Type} (waitFn : K → Option K)
    (a b : K) (hab : waitFn a = some b) (hb : waitFn b = none)
    (N : Nat) (hN : 1 ≤ N) : ExactlyOneWakes waitFn a N := by
  have noStep : ∀ st : Sys K, waitFn st.kernel = none → ∀ st', ¬ Step waitFn st st' := by
    intro st hnone st' hstep
    cases hstep with
    | consume k' hk hbl =>
      rw [hnone] at hk
      cases hk
  have classify : ∀ st, Reaches waitFn ⟨a, N, 0⟩ st →
      st = ⟨a, N, 0⟩ ∨ st = ⟨b, N - 1, 1⟩ := by
    intro st h
    induction h with
    | refl => exact Or.inl rfl
    | tail hprev hstep ih =>
      rcases ih with rfl | rfl
      · cases hstep with
        | consume k' hk hbl =>
          dsimp only at hk ⊢
          rw [hab] at hk
          cases hk
          exact Or.inr rfl
      · exact absurd hstep (noStep ⟨b, N - 1, 1⟩ hb _)
  constructor
  · intro st h
    rcases classify st h with rfl | rfl
    · exact ⟨Nat.zero_le 1, Nat.add_zero N⟩
    · refine ⟨le_refl 1, ?_⟩
      show N - 1 + 1 = N
      omega
  · refine ⟨⟨b, N - 1, 1⟩, ?_, rfl, rfl, ?_⟩
    · exact Relation.ReflTransGen.single
        (Step.consume ⟨a, N, 0⟩ b hab (Nat.lt_of_lt_of_le Nat.zero_lt_one hN))
    · exact noStep ⟨b, N - 1, 1⟩ hb

/-! ## Claims -/

/-- C1, counterexample: in the pipe-only backend, two `signal` calls with
no intervening wait buffer two bytes, and two consecutive non-blocking
`try_wait` calls both succeed — the claimed at-most-one-pending-wake
invariant fails for this backend. -/
theorem C1_counterexample :
    pipe.try_wait (pipe.signal (pipe.signal 0)) ⟨none⟩ = (true, 1) ∧
    pipe.try_wait 1 ⟨none⟩ = (true, 0) := by
  decide

/-- C1 (amended): in the eventfd, kqueue and Windows backends, two
`signal` calls with no intervening wait leave the wait-observed state
signalled exactly once — a single `wait`/`try_wait` consumes it, returns
the wait-observed state to unsignalled, and a second consecutive
non-blocking wait fails; in the pipe-only backend each `signal` buffers
one byte, so two signals permit two consecutive successful non-blocking
waits. -/
theorem C1_amended :
    (∀ (s : linux.State) (env env2 : Env),
      linux.try_wait (linux.signal (linux.signal s)) env = (true, 0) ∧
      linux.wait (linux.signal (linux.signal s)) = some 0 ∧
      linux.try_wait 0 env2 = (false, 0)) ∧
    (∀ (s : macos.State) (env env2 : Env),
      macos.try_wait ((macos.signal ((macos.signal s).1)).1) env =
        (true, ⟨false, s.pipeBytes + 2⟩) ∧
      macos.wait ((macos.signal ((macos.signal s).1)).1) =
        some ⟨false, s.pipeBytes + 2⟩ ∧
      macos.try_wait ⟨false, s.pipeBytes + 2⟩ env2 =
        (false, ⟨false, s.pipeBytes + 2⟩)) ∧
    (∀ (s : windows.State) (env env2 : Env),
      windows.try_wait (windows.signal (windows.signal s)) env = (true, false) ∧
      windows.wait (windows.signal (windows.signal s)) = some false ∧
      windows.try_wait false env2 = (false, false)) ∧
    (pipe.try_wait (pipe.signal (pipe.signal 0)) ⟨none⟩ = (true, 1) ∧
      pipe.try_wait 1 ⟨none⟩ = (true, 0)) := by
  refine ⟨?_, ?_, ?_, by decide⟩
  · intro s env env2
    refine ⟨?_, ?_, ?_⟩
    · simp [linux.try_wait, linux.try_wait_for, linux.signal]
    · simp [linux.wait, linux.signal]
    · simp [linux.try_wait, linux.try_wait_for, from_millis_zero]
      have : linux.poll_millis ⟨0⟩ = 0 := by decide
      rw [this, signal_arrives_zero_millis]
  · intro s env env2
    refine ⟨?_, ?_, ?_⟩
    · simp [macos.try_wait, macos.try_wait_for, macos.signal]
    · simp [macos.wait, macos.signal]
    · have hts : macos.timespec_ns (Duration.from_millis 0) = 0 := by decide
      simp [macos.try_wait, macos.try_wait_for, hts]
      cases env2.arrival with
      | none => simp
      | some t => simp
  · intro s env env2
    refine ⟨?_, ?_, ?_⟩
    · simp [windows.try_wait, windows.signal, windows.WaitForSingleObject]
    · simp [windows.wait, windows.signal]
    · simp only [windows.try_wait, windows.WaitForSingleObject]
      cases env2.arrival with
      | none => simp [windows.WAIT_TIMEOUT, windows.WAIT_OBJECT_0]
      | some t => simp [windows.WAIT_TIMEOUT, windows.WAIT_OBJECT_0, windows.INFINITE]

/-- C2: with `N ≥ 1` threads concurrently blocked in `wait` and exactly
one `signal` applied to the initially-unsignalled kernel state, every
backend wakes exactly one thread: in every reachable interleaving at most
one thread has woken, threads are conserved, and the system reaches a
state with one woken thread and `N - 1` still blocked in which no further
wait can complete — the signal is neither lost nor delivered twice. -/
theorem C2_one_signal_wakes_exactly_one (N : Nat) (hN : 1 ≤ N) :
    ExactlyOneWakes linux.wait (linux.signal 0) N ∧
    ExactlyOneWakes pipe.wait (pipe.signal 0) N ∧
    ExactlyOneWakes macos.wait ((macos.signal ⟨false, 0⟩).1) N ∧
    ExactlyOneWakes windows.wait (windows.signal false) N := by
  refine ⟨?_, ?_, ?_, ?_⟩
  · exact exactlyOneWakes_of_single_unit linux.wait _ 0 (by decide) (by decide) N hN
  · exact exactlyOneWakes_of_single_unit pipe.wait _ 0 (by decide) (by decide) N hN
  · exact exactlyOneWakes_of_single_unit macos.wait _ ⟨false, 1⟩ (by decide) (by decide) N hN
  · exact exactlyOneWakes_of_single_unit windows.wait _ false (by decide) (by decide) N hN

/-- C2, witness at `N = 3`. -/
theorem C2_witness :
    ExactlyOneWakes linux.wait (linux.signal 0) 3 ∧
    ExactlyOneWakes pipe.wait (pipe.signal 0) 3 ∧
    ExactlyOneWakes macos.wait ((macos.signal ⟨false, 0⟩).1) 3 ∧
    ExactlyOneWakes windows.wait (windows.signal false) 3 :=
  C2_one_signal_wakes_exactly_one 3 (by decide)

/-- C3, counterexample: the claim fails twice over.  On the Windows
backend a duration of 2^32 milliseconds is clamped to `u32::MAX`, which
is exactly the `INFINITE` sentinel of `WaitForSingleObject` — the very
value `wait()` passes for its unbounded wait — so `try_wait_for` does
request an effectively infinite wait, and with no signal arriving the
call never returns.  And the kqueue backend does not clamp at all: at a
duration of `u64::MAX` seconds the wrapping `as_secs as libc::time_t`
cast yields a negative `timespec`, `kevent` rejects it with `EINVAL`,
and the call aborts — the too-large duration is treated as an error. -/
theorem C3_counterexample :
    windows.millis_of ⟨4294967296000000⟩ = windows.INFINITE ∧
    windows.blocksForever false (windows.millis_of ⟨4294967296000000⟩) ⟨none⟩ ∧
    macos.timespec_ns ⟨18446744073709551615000000000⟩ < 0 ∧
    macos.try_wait_for_full ⟨false, 0⟩ ⟨18446744073709551615000000000⟩ ⟨none⟩ =
      .fatal .kevent_failed EINVAL := by
  refine ⟨by decide, ⟨rfl, by decide, rfl⟩, by decide, by decide⟩

/-- C3 (amended): on the eventfd and pipe-only backends a duration
exceeding the representable maximum is clamped to a finite nonnegative
poll timeout of at most `c_int::MAX` (never the infinite sentinel -1)
and never treated as an error.  On the Windows backend the duration is
likewise clamped, never rejected, but the clamp bound `u32::MAX`
coincides with the `INFINITE` sentinel, so any duration of at least
`u32::MAX` milliseconds makes `try_wait_for` request an effectively
infinite wait.  The kqueue backend neither clamps nor errors gracefully:
`as_secs` is wrap-cast to `i64`, so every duration with
`as_secs ≥ 2^63` yields a negative `timespec` that `kevent` rejects with
`EINVAL`, aborting the process — there a too-large duration is treated
as a fatal error. -/
theorem C3_amended :
    (∀ d : Duration, 0 ≤ linux.poll_timeout_c_int d ∧
      linux.poll_timeout_c_int d ≤ 2147483647 ∧ linux.poll_timeout_c_int d ≠ -1) ∧
    (∀ d : Duration, 0 ≤ pipe.poll_timeout_c_int d ∧
      pipe.poll_timeout_c_int d ≤ 2147483647 ∧ pipe.poll_timeout_c_int d ≠ -1) ∧
    (∀ d : Duration, windows.millis_of d ≤ 4294967295) ∧
    (∀ d : Duration, 4294967295 ≤ d.as_millis →
      windows.millis_of d = windows.INFINITE ∧
      windows.blocksForever false (windows.millis_of d) ⟨none⟩) ∧
    (∀ d : Duration, 9223372036854775808 ≤ d.as_secs →
      d.as_secs < 18446744073709551616 →
      macos.timespec_ns d < 0 ∧
      ∀ (s : macos.State) (env : Env),
        macos.try_wait_for_full s d env = .fatal .kevent_failed EINVAL) := by
  refine ⟨?_, ?_, ?_, ?_, ?_⟩
  · intro d
    have hle : linux.poll_millis d ≤ 2147483647 := min_le_right _ _
    refine ⟨?_, ?_, ?_⟩
    · show (0 : Int) ≤ (linux.poll_millis d : Int)
      omega
    · show (linux.poll_millis d : Int) ≤ 2147483647
      omega
    · show (linux.poll_millis d : Int) ≠ -1
      omega
  · intro d
    have hle : pipe.poll_millis d ≤ 2147483647 := min_le_right _ _
    refine ⟨?_, ?_, ?_⟩
    · show (0 : Int) ≤ (pipe.poll_millis d : Int)
      omega
    · show (pipe.poll_millis d : Int) ≤ 2147483647
      omega
    · show (pipe.poll_millis d : Int) ≠ -1
      omega
  · intro d
    exact min_le_right _ _
  · intro d hd
    have hm : windows.millis_of d = 4294967295 := by
      unfold windows.millis_of
      omega
    exact ⟨hm, rfl, hm, rfl⟩
  · intro d hge hlt
    have hmod : d.as_secs % 18446744073709551616 = d.as_secs := Nat.mod_eq_of_lt hlt
    have hcast : macos.tv_sec_cast d.as_secs =
        (d.as_secs : Int) - 18446744073709551616 := by
      unfold macos.tv_sec_cast
      rw [hmod, if_neg (by omega)]
    have hsub : d.subsec_nanos < 1000000000 := Nat.mod_lt _ (by norm_num)
    have hneg : macos.timespec_ns d < 0 := by
      unfold macos.timespec_ns
      rw [hcast]
      omega
    refine ⟨hneg, ?_⟩
    intro s env
    unfold macos.try_wait_for_full
    rw [if_pos hneg]

/-- C3, witness: the amended facts evaluated at the concrete durations of
2^32 milliseconds (Windows `INFINITE` clamp) and `u64::MAX` seconds
(kqueue wrapped-negative `timespec`, fatal `EINVAL`). -/
theorem C3_witness :
    (windows.millis_of ⟨4294967296000000⟩ = windows.INFINITE ∧
      windows.blocksForever false (windows.millis_of ⟨4294967296000000⟩) ⟨none⟩) ∧
    (macos.timespec_ns ⟨18446744073709551615000000000⟩ < 0 ∧
      ∀ (s : macos.State) (env : Env),
        macos.try_wait_for_full s ⟨18446744073709551615000000000⟩ env =
          .fatal .kevent_failed EINVAL) :=
  ⟨C3_amended.2.2.2.1 ⟨4294967296000000⟩ (by decide),
    C3_amended.2.2.2.2 ⟨18446744073709551615000000000⟩ (by decide) (by decide)⟩

/-- C4: on every backend, `try_wait` returns the same boolean and causes
the same state change as `try_wait_for` with a zero-length timeout —
including the Windows backend, whose `try_wait` issues its own
`WaitForSingleObject(handle, 0)` call instead of delegating. -/
theorem C4_try_wait_is_zero_timeout :
    (∀ (s : linux.State) (env : Env),
      linux.try_wait s env = linux.try_wait_for s ⟨0⟩ env) ∧
    (∀ (s : pipe.State) (env : Env),
      pipe.try_wait s env = pipe.try_wait_for s ⟨0⟩ env) ∧
    (∀ (s : macos.State) (env : Env),
      macos.try_wait s env = macos.try_wait_for s ⟨0⟩ env) ∧
    (∀ (s : windows.State) (env : Env),
      windows.try_wait s env = windows.try_wait_for s ⟨0⟩ env) := by
  refine ⟨?_, ?_, ?_, ?_⟩
  · intro s env
    rw [linux.try_wait, from_millis_zero]
  · intro s env
    rw [pipe.try_wait, from_millis_zero]
  · intro s env
    rw [macos.try_wait, from_millis_zero]
  · intro s env
    have h0 : windows.millis_of ⟨0⟩ = 0 := by decide
    rw [windows.try_wait, windows.try_wait_for, h0]

/-- C5: in `try_wait_for` of the descriptor-based backends, when `poll`
reported readiness (`ret > 0` with `POLLIN` set) but the consuming read
fails with `WouldBlock` — another thread drained the signal between poll
and read — the call returns `false` through the normal not-signalled
path; any other read error aborts the process. -/
theorem C5_benign_race (ret e : Nat) (hret : 0 < ret) (he : e ≠ EAGAIN) :
    (linux.try_wait_for_sys (.ok ret true) (.err EAGAIN) = .ok false ∧
      linux.try_wait_for_sys (.ok ret true) (.err e) = .fatal .read_failed e) ∧
    (pipe.try_wait_for_sys (.ok ret true) (.err EAGAIN) = .ok false ∧
      pipe.try_wait_for_sys (.ok ret true) (.err e) = .fatal .read_failed e) := by
  refine ⟨⟨?_, ?_⟩, ⟨?_, ?_⟩⟩ <;>
    simp [linux.try_wait_for_sys, pipe.try_wait_for_sys, hret, he]

/-- C5, witness at `ret = 1`, `e = 5` (`EIO`). -/
theorem C5_witness :
    (linux.try_wait_for_sys (.ok 1 true) (.err EAGAIN) = .ok false ∧
      linux.try_wait_for_sys (.ok 1 true) (.err 5) = .fatal .read_failed 5) ∧
    (pipe.try_wait_for_sys (.ok 1 true) (.err EAGAIN) = .ok false ∧
      pipe.try_wait_for_sys (.ok 1 true) (.err 5) = .fatal .read_failed 5) :=
  C5_benign_race 1 5 (by decide) (by decide)

/-- C6: every failing run of the kqueue backend's constructor returns no
partial Event, releases every descriptor allocated before the failing
step (the kqueue descriptor if `pipe()` fails; kqueue and both pipe
descriptors if the registering `kevent` fails), and returns the failing
call's own OS error code. -/
theorem C6_constructor_no_leak (env : macos.NewEnv) (e : Nat)
    (h : (macos.new env).result = .err e) :
    (macos.new env).closed = (macos.new env).opened ∧
    (env.kqueue_ret = .err e ∨
      ((∃ n, env.kqueue_ret = .ok n) ∧ env.pipe_ret = .err e) ∨
      ((∃ n, env.kqueue_ret = .ok n) ∧ (∃ n, env.pipe_ret = .ok n) ∧
        env.kevent_add_ret = .err e)) := by
  obtain ⟨kr, pr, er⟩ := env
  cases kr with
  | err e0 =>
    have he : e0 = e := by
      have h2 : macos.NewReturn.err e0 = macos.NewReturn.err e := h
      injection h2
    subst he
    exact ⟨rfl, Or.inl rfl⟩
  | ok n0 =>
    cases pr with
    | err e0 =>
      have he : e0 = e := by
        have h2 : macos.NewReturn.err e0 = macos.NewReturn.err e := h
        injection h2
      subst he
      exact ⟨rfl, Or.inr (Or.inl ⟨⟨n0, rfl⟩, rfl⟩)⟩
    | ok n1 =>
      cases er with
      | err e0 =>
        have he : e0 = e := by
          have h2 : macos.NewReturn.err e0 = macos.NewReturn.err e := h
          injection h2
        subst he
        exact ⟨rfl, Or.inr (Or.inr ⟨⟨n0, rfl⟩, ⟨n1, rfl⟩, rfl⟩)⟩
      | ok n2 =>
        exact absurd h (by simp [macos.new])

/-- C6, witness: `pipe()` failing with `EMFILE` (24) after a successful
`kqueue()`. -/
theorem C6_witness :
    (macos.new ⟨.ok 3, .err 24, .ok 0⟩).closed =
      (macos.new ⟨.ok 3, .err 24, .ok 0⟩).opened ∧
    ((⟨.ok 3, .err 24, .ok 0⟩ : macos.NewEnv).kqueue_ret = .err 24 ∨
      ((∃ n, (⟨.ok 3, .err 24, .ok 0⟩ : macos.NewEnv).kqueue_ret = .ok n) ∧
        (⟨.ok 3, .err 24, .ok 0⟩ : macos.NewEnv).pipe_ret = .err 24) ∨
      ((∃ n, (⟨.ok 3, .err 24, .ok 0⟩ : macos.NewEnv).kqueue_ret = .ok n) ∧
        (∃ n, (⟨.ok 3, .err 24, .ok 0⟩ : macos.NewEnv).pipe_ret = .ok n) ∧
        (⟨.ok 3, .err 24, .ok 0⟩ : macos.NewEnv).kevent_add_ret = .err 24)) :=
  C6_constructor_no_leak ⟨.ok 3, .err 24, .ok 0⟩ 24 (by decide)

/-- C7: in the kqueue backend, `signal` performs both operations in this
order — trigger the `EVFILT_USER` event on the kqueue, then write exactly
one byte to the pipe's write end — leaving the user event pending and the
pipe one byte fuller. -/
theorem C7_signal_triggers_then_writes (s : macos.State) :
    (macos.signal s).2 =
      [macos.Syscall.kevent_trigger_user, macos.Syscall.write_pipe_byte] ∧
    (macos.signal s).1 = ⟨true, s.pipeBytes + 1⟩ :=
  ⟨rfl, rfl⟩

/-- C8: in the kqueue backend, a completing `wait` consumes only the
queue-event side and leaves the pipe contents unchanged; the exposed
readiness handle is the pipe's read descriptor, so after `signal` then
`wait` the exposed descriptor still polls readable even though the
logical signal has been consumed. -/
theorem C8_wait_leaves_pipe :
    (∀ s s2 : macos.State, macos.wait s = some s2 →
      s2.pipeBytes = s.pipeBytes ∧ s2.uevent = false) ∧
    macos.as_raw_fd = macos.Fd.pipe_read ∧
    (∀ s : macos.State,
      macos.wait ((macos.signal s).1) = some ⟨false, s.pipeBytes + 1⟩ ∧
      macos.pipe_read_readable ⟨false, s.pipeBytes + 1⟩ = true) := by
  refine ⟨?_, rfl, ?_⟩
  · intro s s2 h
    cases hs : s.uevent with
    | false => simp [macos.wait, hs] at h
    | true =>
      simp [macos.wait, hs] at h
      subst h
      exact ⟨rfl, rfl⟩
  · intro s
    exact ⟨rfl, by simp [macos.pipe_read_readable]⟩

/-- C8, witness at the state with the user event pending and two buffered
pipe bytes. -/
theorem C8_witness :
    (⟨false, 2⟩ : macos.State).pipeBytes = (⟨true, 2⟩ : macos.State).pipeBytes ∧
    (⟨false, 2⟩ : macos.State).uevent = false :=
  C8_wait_leaves_pipe.1 ⟨true, 2⟩ ⟨false, 2⟩ (by decide)

/-- C9: on every backend, an OS-call failure in a post-construction
operation other than the benign would-block race aborts the process with
the failing call's OS error code carried in the panic message; the
`Outcome` type of these operations has no recoverable-error constructor,
mirroring the `()`/`bool` return types of the Rust API. -/
theorem C9_fatal_on_unexpected_os_error (e le res : Nat) (r : SysRet)
    (he : e ≠ EAGAIN) (h0 : res ≠ windows.WAIT_OBJECT_0)
    (h258 : res ≠ windows.WAIT_TIMEOUT) :
    linux.wait_sys (.err e) = .fatal .read_failed e ∧
    linux.signal_sys (.err e) = .fatal .write_failed e ∧
    linux.try_wait_for_sys (.err e) r = .fatal .poll_failed e ∧
    linux.try_wait_for_sys (.ok 1 true) (.err e) = .fatal .read_failed e ∧
    pipe.wait_sys (.err e) = .fatal .read_failed e ∧
    pipe.signal_sys (.err e) = .fatal .write_failed e ∧
    pipe.try_wait_for_sys (.err e) r = .fatal .poll_failed e ∧
    pipe.try_wait_for_sys (.ok 1 true) (.err e) = .fatal .read_failed e ∧
    macos.wait_sys (.err e) = .fatal .kevent_failed e ∧
    macos.try_wait_for_sys (.err e) = .fatal .kevent_failed e ∧
    macos.signal_sys (.err e) r = .fatal .kevent_failed e ∧
    macos.signal_sys (.ok 0) (.err e) = .fatal .write_failed e ∧
    windows.wait_sys res le = .fatal .wait_for_single_object_failed le ∧
    windows.try_wait_sys res le = .fatal .wait_for_single_object_failed le ∧
    windows.try_wait_for_sys res le = .fatal .wait_for_single_object_failed le ∧
    windows.signal_sys false le = .fatal .set_event_failed le := by
  refine ⟨rfl, rfl, rfl, ?_, rfl, rfl, rfl, ?_, rfl, rfl, rfl, rfl, ?_, ?_, ?_, rfl⟩
  · simp [linux.try_wait_for_sys, he]
  · simp [pipe.try_wait_for_sys, he]
  · simp [windows.wait_sys, h0]
  · simp [windows.try_wait_sys, h0, h258]
  · simp [windows.try_wait_for_sys, h0, h258]

/-- C9, witness at `e = 5` (`EIO`), `GetLastError` 6, and return code
4294967295 (`WAIT_FAILED`). -/
theorem C9_witness :
    linux.wait_sys (.err 5) = .fatal .read_failed 5 ∧
    linux.signal_sys (.err 5) = .fatal .write_failed 5 ∧
    linux.try_wait_for_sys (.err 5) (.ok 0) = .fatal .poll_failed 5 ∧
    linux.try_wait_for_sys (.ok 1 true) (.err 5) = .fatal .read_failed 5 ∧
    pipe.wait_sys (.err 5) = .fatal .read_failed 5 ∧
    pipe.signal_sys (.err 5) = .fatal .write_failed 5 ∧
    pipe.try_wait_for_sys (.err 5) (.ok 0) = .fatal .poll_failed 5 ∧
    pipe.try_wait_for_sys (.ok 1 true) (.err 5) = .fatal .read_failed 5 ∧
    macos.wait_sys (.err 5) = .fatal .kevent_failed 5 ∧
    macos.try_wait_for_sys (.err 5) = .fatal .kevent_failed 5 ∧
    macos.signal_sys (.err 5) (.ok 0) = .fatal .kevent_failed 5 ∧
    macos.signal_sys (.ok 0) (.err 5) = .fatal .write_failed 5 ∧
    windows.wait_sys 4294967295 6 = .fatal .wait_for_single_object_failed 6 ∧
    windows.try_wait_sys 4294967295 6 = .fatal .wait_for_single_object_failed 6 ∧
    windows.try_wait_for_sys 4294967295 6 = .fatal .wait_for_single_object_failed 6 ∧
    windows.signal_sys false 6 = .fatal .set_event_failed 6 :=
  C9_fatal_on_unexpected_os_error 5 6 4294967295 (.ok 0)
    (by decide) (by decide) (by decide)

/-- C10: in the eventfd and pipe-only backends, `try_wait_for` truncates
the timeout to whole milliseconds, so for every duration under one
millisecond (999 microseconds included) the computed poll timeout is 0
and the call behaves exactly as the non-blocking `try_wait`, returning
immediately and independently of any arriving signal. -/
theorem C10_submillisecond_truncation (d : Duration) (h : d.ns < 1000000) :
    linux.poll_millis d = 0 ∧ pipe.poll_millis d = 0 ∧
    (∀ (s : linux.State) (env env2 : Env),
      linux.try_wait_for s d env = linux.try_wait s env2) ∧
    (∀ (s : pipe.State) (env env2 : Env),
      pipe.try_wait_for s d env = pipe.try_wait s env2) := by
  have hm : d.as_millis = 0 := Nat.div_eq_of_lt h
  have h1 : linux.poll_millis d = 0 := by simp [linux.poll_millis, hm]
  have h2 : pipe.poll_millis d = 0 := by simp [pipe.poll_millis, hm]
  have hz : linux.poll_millis ⟨0⟩ = 0 := by decide
  have hz2 : pipe.poll_millis ⟨0⟩ = 0 := by decide
  refine ⟨h1, h2, ?_, ?_⟩
  · intro s env env2
    simp only [linux.try_wait, linux.try_wait_for, from_millis_zero, h1, hz,
      signal_arrives_zero_millis]
  · intro s env env2
    simp only [pipe.try_wait, pipe.try_wait_for, from_millis_zero, h2, hz2,
      signal_arrives_zero_millis]

/-- C10, witness at 999 microseconds. -/
theorem C10_witness :
    linux.poll_millis ⟨999000⟩ = 0 ∧ pipe.poll_millis ⟨999000⟩ = 0 ∧
    (∀ (s : linux.State) (env env2 : Env),
      linux.try_wait_for s ⟨999000⟩ env = linux.try_wait s env2) ∧
    (∀ (s : pipe.State) (env env2 : Env),
      pipe.try_wait_for s ⟨999000⟩ env = pipe.try_wait s env2) :=
  C10_submillisecond_truncation ⟨999000⟩ (by decide)

end Nova
